import Mathlib

/-!
Shallow embedding of the Traffic Portal profile administration fragment:
the typed HTTP service wrapper (ProfileService), the profile add/edit form
controller (ProfileDetailComponent) and the core route table. Browser-side
effects (HTTP calls, dialog opening, navigation, header-title emissions,
console logging) are made explicit as a trace of Effect values; the remote
server is an oracle function from requests to responses.
-/

namespace TrafficPortal

/-- The ProfileType enumeration from trafficops-types, as enumerated by the
components `types` field (profile-detail.component.ts lines 36-52). -/
inductive ProfileType
  | ATS_PROFILE
  | TR_PROFILE
  | TM_PROFILE
  | TS_PROFILE
  | TP_PROFILE
  | INFLUXDB_PROFILE
  | RIAK_PROFILE
  | SPLUNK_PROFILE
  | DS_PROFILE
  | ORG_PROFILE
  | KAFKA_PROFILE
  | LOGSTASH_PROFILE
  | ES_PROFILE
  | UNK_PROFILE
  | GROVE_PROFILE
deriving DecidableEq, Repr

/-- The ResponseProfile DTO: a plain attribute bag with the fields the
component initializes (profile-detail.component.ts lines 75-84). The
lastUpdated timestamp is modelled as a Nat clock value. -/
structure ResponseProfile where
  cdn : Int
  cdnName : String
  description : String
  id : Int
  lastUpdated : Nat
  name : String
  routingDisabled : Bool
  type : ProfileType
deriving DecidableEq, Repr

/-- Modelled from the spec: the CDN DTO (trafficops-types is not under src;
the spec describes entities as plain attribute bags with id and name). Only
its identity matters to the claims. -/
structure ResponseCDN where
  id : Int
  name : String
deriving DecidableEq, Repr

/-- HTTP verbs used by the service layer. -/
inductive HttpMethod
  | get
  | post
  | put
  | delete
deriving DecidableEq, Repr

/-- A request issued through the APIService base class: verb, relative path,
query parameters and optional profile body. -/
structure ApiRequest where
  method : HttpMethod
  path : String
  params : List (String × String)
  body : Option ResponseProfile
deriving DecidableEq, Repr

/-- A JavaScript number restricted to the integral values that occur as
profile ids; none models NaN. -/
abbrev JSNum := Option Int

/-- JavaScript String(n) on a JSNum: NaN stringifies to "NaN", an integral
number to its decimal representation. -/
def jsNumToString : JSNum → String
  | none => "NaN"
  | some n => toString n

/-- The JavaScript whitespace characters relevant to number parsing. -/
def isJsWhitespace (c : Char) : Bool :=
  c == ' ' || c == '\t' || c == '\n' || c == '\r'

/-- Decimal value of a digit-character list, most significant first. -/
def digitsToNat (ds : List Char) : Nat :=
  ds.foldl (fun acc c => acc * 10 + (c.toNat - 48)) 0

/-- Strip one optional leading sign character, returning the sign factor and
the remaining characters. -/
def splitSign (cs : List Char) : Int × List Char :=
  match cs with
  | [] => (1, [])
  | c :: rest =>
    if c = '-' then (-1, rest)
    else if c = '+' then (1, rest)
    else (1, c :: rest)

/-- JavaScript parseInt(s, 10): skip leading whitespace, read an optional
sign and then the longest prefix of decimal digits; NaN (none) when that
prefix is empty. -/
def jsParseInt (s : String) : Option Int :=
  let cs := s.toList.dropWhile isJsWhitespace
  let sc := splitSign cs
  let ds := sc.2.takeWhile Char.isDigit
  if ds.isEmpty then none else some (sc.1 * (digitsToNat ds : Int))

/-- JavaScript Number(s), modelled on the domain of route ids: whitespace is
trimmed, the empty string converts to 0, an optionally signed all-digit
string converts to its value, and every other string (including a digit
prefix followed by other characters, as in "12x") converts to NaN (none).
Fractional, exponent and radix-prefixed literal forms do not occur as
profile ids and are mapped to NaN. -/
def jsNumber (s : String) : JSNum :=
  let cs := ((s.toList.dropWhile isJsWhitespace).reverse.dropWhile isJsWhitespace).reverse
  if cs.isEmpty then some 0
  else
    let sc := splitSign cs
    if sc.2.isEmpty then none
    else if sc.2.all Char.isDigit then some (sc.1 * (digitsToNat sc.2 : Int))
    else none

namespace ProfileService

/-- ProfileService.getProfiles: with an argument it issues GET "profiles"
with an id parameter (number) or name parameter (string) and returns the
first element of the response array; with no argument it issues GET
"profiles" and returns the whole array. The server oracle maps the issued
request to the response array; the result pairs the issued request with the
returned value (inl for the array overload, inr for the single overload). -/
def getProfiles (server : ApiRequest → List ResponseProfile) :
    Option (JSNum ⊕ String) → ApiRequest × (List ResponseProfile ⊕ Option ResponseProfile)
  | some idOrName =>
    let params := match idOrName with
      | Sum.inl n => [("id", jsNumToString n)]
      | Sum.inr s => [("name", s)]
    let req : ApiRequest := { method := HttpMethod.get, path := "profiles", params := params, body := none }
    (req, Sum.inr (server req).head?)
  | none =>
    let req : ApiRequest := { method := HttpMethod.get, path := "profiles", params := [], body := none }
    (req, Sum.inl (server req))

/-- ProfileService.createProfile: POST "profiles" with the profile as body,
returning the servers response. -/
def createProfile (server : ApiRequest → ResponseProfile) (profile : ResponseProfile) :
    ApiRequest × ResponseProfile :=
  let req : ApiRequest := { method := HttpMethod.post, path := "profiles", params := [], body := some profile }
  (req, server req)

/-- ProfileService.updateProfile: PUT "profiles/{id}" using the id field of
the argument, with the profile as body, returning the servers response. -/
def updateProfile (server : ApiRequest → ResponseProfile) (profile : ResponseProfile) :
    ApiRequest × ResponseProfile :=
  let req : ApiRequest :=
    { method := HttpMethod.put, path := "profiles/" ++ toString profile.id, params := [], body := some profile }
  (req, server req)

/-- ProfileService.deleteProfile: DELETE "profiles/{id}", where the id is the
number argument itself or the id field of the profile argument. -/
def deleteProfile (server : ApiRequest → ResponseProfile) (profileId : Int ⊕ ResponseProfile) :
    ApiRequest × ResponseProfile :=
  let id := match profileId with
    | Sum.inl n => n
    | Sum.inr p => p.id
  let req : ApiRequest :=
    { method := HttpMethod.delete, path := "profiles/" ++ toString id, params := [], body := none }
  (req, server req)

end ProfileService

/-- An observable browser-side effect of a component method: an HTTP request
issued through a service, a header-title emission on the navigation
service, a router navigation, the opening of a decision dialog, or a
console error log. -/
inductive Effect
  | httpReq (req : ApiRequest)
  | headerTitle (title : String)
  | navigate (path : String)
  | openDialog (message : String) (title : String)
  | consoleError (message : String)
deriving DecidableEq, Repr

/-- True exactly for an HTTP request effect against the "profiles"
collection path (a profile fetch or create). -/
def Effect.isProfileRequest : Effect → Bool
  | Effect.httpReq r => r.path == "profiles"
  | _ => false

/-- True exactly for an HTTP GET request effect. -/
def Effect.isGetRequest : Effect → Bool
  | Effect.httpReq r => r.method == HttpMethod.get
  | _ => false

/-- True exactly for an HTTP PUT request effect. -/
def Effect.isPutRequest : Effect → Bool
  | Effect.httpReq r => r.method == HttpMethod.put
  | _ => false

/-- True exactly for a router navigation effect. -/
def Effect.isNavigation : Effect → Bool
  | Effect.navigate _ => true
  | _ => false

/-- True exactly for a dialog-opening effect. -/
def Effect.isDialog : Effect → Bool
  | Effect.openDialog _ _ => true
  | _ => false

namespace ProfileDetailComponent

/-- The mutable fields of ProfileDetailComponent: the new flag (initially
false), the working profile copy and the fetched CDN list. -/
structure ComponentState where
  new : Bool
  profile : ResponseProfile
  cdns : List ResponseCDN
deriving DecidableEq, Repr

/-- Modelled from the spec: CDNService.getCDNs is not under src; the spec
lists analogous GET collection routes for CDNs, so the fetch awaited first
in ngOnInit is modelled as a GET of path "cdns" whose response is the cdns
oracle list. -/
def getCDNsRequest : ApiRequest :=
  { method := HttpMethod.get, path := "cdns", params := [], body := none }

/-- The blank working record ngOnInit installs for a "new" route parameter
(profile-detail.component.ts lines 75-84); now stands for the value of
new Date(). -/
def blankProfile (now : Nat) : ResponseProfile :=
  { cdn := -1, cdnName := "", description := "", id := -1, lastUpdated := now,
    name := "", routingDisabled := false, type := ProfileType.ATS_PROFILE }

/-- Project the union-typed getProfiles result onto the single-Profile
overload the component selects by calling getProfiles with a number. -/
def singleResult : List ResponseProfile ⊕ Option ResponseProfile → Option ResponseProfile
  | Sum.inl l => l.head?
  | Sum.inr r => r

/-- ProfileDetailComponent.ngOnInit: awaits the CDN list, reads the id route
parameter, throws when it is absent, installs a blank record and the new
flag for "new", throws when parseInt of the id is NaN, and otherwise
fetches the single profile for Number(id) and publishes the header title.
The error branches of the TypeScript method throw; they are modelled as
Except.error values paired with the effects emitted up to that point. -/
def ngOnInit (now : Nat) (cdns : List ResponseCDN) (server : ApiRequest → List ResponseProfile)
    (idParam : Option String) : List Effect × Except String ComponentState :=
  match idParam with
  | none => ([Effect.httpReq getCDNsRequest], Except.error "missing required route parameter id")
  | some id =>
    if id = "new" then
      ([Effect.httpReq getCDNsRequest, Effect.headerTitle "New Profile"],
        Except.ok { new := true, profile := blankProfile now, cdns := cdns })
    else if (jsParseInt id).isNone then
      ([Effect.httpReq getCDNsRequest],
        Except.error "route parameter id was non-number: [object Object]")
    else
      let r := ProfileService.getProfiles server (some (Sum.inl (jsNumber id)))
      match singleResult r.2 with
      | none =>
        ([Effect.httpReq getCDNsRequest, Effect.httpReq r.1],
          Except.error "TypeError: this.profile is undefined")
      | some p =>
        ([Effect.httpReq getCDNsRequest, Effect.httpReq r.1,
            Effect.headerTitle ("Profile: " ++ p.name)],
          Except.ok { new := false, profile := p, cdns := cdns })

/-- The HTML form submission event, with the flags preventDefault and
stopPropagation set. -/
structure SubmitEvent where
  defaultPrevented : Bool
  propagationStopped : Bool
deriving DecidableEq, Repr

/-- ProfileDetailComponent.submit: prevents the default action and stops
propagation of the event, then creates (POST) when the new flag is set,
clearing the flag, or updates (PUT) otherwise; in both branches the
working copy is replaced with the servers response. -/
def submit (server : ApiRequest → ResponseProfile) (s : ComponentState) (e : SubmitEvent) :
    ComponentState × SubmitEvent × List Effect :=
  let e2 : SubmitEvent := { e with defaultPrevented := true, propagationStopped := true }
  if s.new then
    let r := ProfileService.createProfile server s.profile
    ({ s with profile := r.2, new := false }, e2, [Effect.httpReq r.1])
  else
    let r := ProfileService.updateProfile server s.profile
    ({ s with profile := r.2 }, e2, [Effect.httpReq r.1])

/-- ProfileDetailComponent.deleteType: logs an error and stops when the new
flag is set; otherwise opens the decision dialog and, only when the dialog
closes with a truthy result, issues the DELETE for the current profiles id
and navigates to the profile list view. The dialogResult argument is the
value the dialogs afterClosed observable delivers. -/
def deleteType (server : ApiRequest → ResponseProfile) (dialogResult : Bool)
    (s : ComponentState) : ComponentState × List Effect :=
  if s.new then
    (s, [Effect.consoleError "Unable to delete new type"])
  else
    let dlg := Effect.openDialog
      ("Are you sure to delete Profile " ++ s.profile.name ++ " with id "
        ++ toString s.profile.id ++ "?")
      "Confirm Delete"
    if dialogResult then
      (s, [dlg, Effect.httpReq (ProfileService.deleteProfile server (Sum.inl s.profile.id)).1,
        Effect.navigate "/core/profiles"])
    else
      (s, [dlg])

end ProfileDetailComponent

/-- A routing table entry: the component rendered, the path pattern, and the
canActivate guard list. -/
structure Route where
  component : String
  path : String
  canActivate : List String
deriving DecidableEq, Repr

/-- The ROUTES constant of the core module (core.module.ts lines 66-97): the
literal component/path pairs, mapped so that every entry carries the
AuthenticatedGuard in its canActivate list. -/
def ROUTES : List Route :=
  ([ ("DashboardComponent", ""),
     ("AsnDetailComponent", "asns/:id"),
     ("AsnsTableComponent", "asns"),
     ("DivisionsTableComponent", "divisions"),
     ("DivisionDetailComponent", "divisions/:id"),
     ("RegionsTableComponent", "regions"),
     ("RegionDetailComponent", "regions/:id"),
     ("UsersComponent", "users"),
     ("UserDetailsComponent", "users/:id"),
     ("CDNDetailComponent", "cdns/:id"),
     ("ServersTableComponent", "servers"),
     ("ServerDetailsComponent", "servers/:id"),
     ("DeliveryserviceComponent", "deliveryservice/:id"),
     ("InvalidationJobsComponent", "deliveryservice/:id/invalidation-jobs"),
     ("CurrentuserComponent", "me"),
     ("NewDeliveryServiceComponent", "new.Delivery.Service"),
     ("CacheGroupTableComponent", "cache-groups"),
     ("CacheGroupDetailsComponent", "cache-groups/:id"),
     ("TenantsComponent", "tenants"),
     ("ChangeLogsComponent", "change-logs"),
     ("TenantDetailsComponent", "tenants/:id"),
     ("PhysLocDetailComponent", "phys-locs/:id"),
     ("PhysLocTableComponent", "phys-locs"),
     ("CoordinateDetailComponent", "coordinates/:id"),
     ("CoordinatesTableComponent", "coordinates"),
     ("TypesTableComponent", "types"),
     ("TypeDetailComponent", "types/:id"),
     ("ISOGenerationFormComponent", "iso-gen"),
     ("ProfileDetailComponent", "profiles/:id"),
     ("ProfileTableComponent", "profiles") ] : List (String × String)).map
    (fun r => { component := r.1, path := r.2, canActivate := ["AuthenticatedGuard"] })

/-! Helper lemmas about the JavaScript number-parsing model on all-digit strings. -/

lemma not_ws_of_digit (c : Char) (h : c.isDigit = true) : isJsWhitespace c = false := by
  by_contra hws
  rw [Bool.not_eq_false] at hws
  simp only [isJsWhitespace, Bool.or_eq_true, beq_iff_eq] at hws
  rcases hws with ((h1 | h1) | h1) | h1 <;> subst h1 <;> exact absurd h (by decide)

lemma dropWhile_ws_of_digits (l : List Char) (h : ∀ x ∈ l, x.isDigit = true) :
    l.dropWhile isJsWhitespace = l := by
  cases l with
  | nil => rfl
  | cons c rest => simp [List.dropWhile_cons, not_ws_of_digit c (h c (by simp))]

lemma splitSign_digits (c : Char) (rest : List Char) (h : c.isDigit = true) :
    splitSign (c :: rest) = (1, c :: rest) := by
  have h1 : ¬(c = '-') := by intro e; subst e; exact absurd h (by decide)
  have h2 : ¬(c = '+') := by intro e; subst e; exact absurd h (by decide)
  simp [splitSign, h1, h2]

lemma jsParseInt_digits (s : String) (c : Char) (rest : List Char)
    (hcr : s.toList = c :: rest) (h2 : ∀ x ∈ s.toList, x.isDigit = true) :
    jsParseInt s = some (digitsToNat s.toList : Int) := by
  rw [hcr] at h2 ⊢
  have hcr2 : s.data = c :: rest := hcr
  have hdrop : (c :: rest).dropWhile isJsWhitespace = c :: rest := dropWhile_ws_of_digits _ h2
  have hsplit : splitSign (c :: rest) = (1, c :: rest) :=
    splitSign_digits c rest (h2 c (List.mem_cons_self c rest))
  have htake : (c :: rest).takeWhile Char.isDigit = c :: rest :=
    List.takeWhile_eq_self_iff.mpr h2
  simp only [jsParseInt, String.toList, hcr, hcr2, hdrop, hsplit, htake, List.isEmpty_cons]
  simp

lemma jsNumber_digits (s : String) (c : Char) (rest : List Char)
    (hcr : s.toList = c :: rest) (h2 : ∀ x ∈ s.toList, x.isDigit = true) :
    jsNumber s = some (digitsToNat s.toList : Int) := by
  rw [hcr] at h2 ⊢
  have hcr2 : s.data = c :: rest := hcr
  have hdrop : (c :: rest).dropWhile isJsWhitespace = c :: rest := dropWhile_ws_of_digits _ h2
  have hrev : (c :: rest).reverse.dropWhile isJsWhitespace = (c :: rest).reverse := by
    refine dropWhile_ws_of_digits _ ?_
    intro x hx
    exact h2 x (List.mem_reverse.mp hx)
  have hsplit : splitSign (c :: rest) = (1, c :: rest) :=
    splitSign_digits c rest (h2 c (List.mem_cons_self c rest))
  have hall : (c :: rest).all Char.isDigit = true := List.all_eq_true.mpr h2
  simp only [jsNumber, String.toList, hcr, hcr2, hdrop, hrev, List.reverse_reverse, hsplit, hall, List.isEmpty_cons]
  simp

/-- All-digit strings are distinct from the sentinel "new". -/
lemma digits_ne_new (s : String) (hdig : ∀ x ∈ s.toList, x.isDigit = true) : s ≠ "new" := by
  intro e
  subst e
  exact absurd (hdig 'n' (by decide)) (by decide)

/-- The request getProfiles issues for a number argument. -/
def profileIdRequest (n : JSNum) : ApiRequest :=
  { method := HttpMethod.get, path := "profiles", params := [("id", jsNumToString n)], body := none }

lemma getProfiles_id_eq (server : ApiRequest → List ResponseProfile) (n : JSNum) :
    ProfileService.getProfiles server (some (Sum.inl n)) =
      (profileIdRequest n, Sum.inr (server (profileIdRequest n)).head?) := rfl

namespace ProfileDetailComponent

lemma ngOnInit_goodBranch (now : Nat) (cdns : List ResponseCDN)
    (server : ApiRequest → List ResponseProfile) (s : String) (v : Int)
    (p : ResponseProfile) (ps : List ResponseProfile)
    (hne : ¬(s = "new")) (hpi : jsParseInt s = some v)
    (hsrv : server (profileIdRequest (jsNumber s)) = p :: ps) :
    ngOnInit now cdns server (some s) =
      ([Effect.httpReq getCDNsRequest, Effect.httpReq (profileIdRequest (jsNumber s)),
        Effect.headerTitle ("Profile: " ++ p.name)],
        Except.ok { new := false, profile := p, cdns := cdns }) := by
  simp only [ngOnInit, if_neg hne, hpi, Option.isNone_some, getProfiles_id_eq, singleResult,
    hsrv, List.head?_cons, Bool.false_eq_true, if_false]

lemma ngOnInit_badBranch (now : Nat) (cdns : List ResponseCDN)
    (server : ApiRequest → List ResponseProfile) (s : String)
    (hne : ¬(s = "new")) (hpi : jsParseInt s = none) :
    ngOnInit now cdns server (some s) =
      ([Effect.httpReq getCDNsRequest],
        Except.error "route parameter id was non-number: [object Object]") := by
  simp only [ngOnInit, if_neg hne, hpi, Option.isNone_none, if_true]

end ProfileDetailComponent

/-- A concrete profile used to instantiate oracle servers in closed
evaluation theorems. -/
def sampleProfile : ResponseProfile :=
  { cdn := 1, cdnName := "ALL", description := "test profile", id := 2, lastUpdated := 0,
    name := "test", routingDisabled := false, type := ProfileType.ATS_PROFILE }

/-- A concrete list-response server oracle answering every request with the
singleton sample profile array. -/
def wListServer : ApiRequest → List ResponseProfile := fun _ => [sampleProfile]

/-- C2: for the route parameter value "new", ngOnInit initializes an empty
working record (empty name and description, id -1, cdn -1, routingDisabled
false, type ATS_PROFILE), sets the new flag, and issues no fetch against
the profiles path. -/
theorem ngOnInit_new_initializesBlank (now : Nat) (cdns : List ResponseCDN)
    (server : ApiRequest → List ResponseProfile) :
    (ProfileDetailComponent.ngOnInit now cdns server (some "new")).2 =
      Except.ok { new := true, profile := ProfileDetailComponent.blankProfile now, cdns := cdns } ∧
    ProfileDetailComponent.blankProfile now =
      { cdn := -1, cdnName := "", description := "", id := -1, lastUpdated := now,
        name := "", routingDisabled := false, type := ProfileType.ATS_PROFILE } ∧
    ((ProfileDetailComponent.ngOnInit now cdns server (some "new")).1.all
        (fun e => !e.isProfileRequest)) = true :=
  ⟨rfl, rfl, rfl⟩

/-- C3: for an all-digit route parameter, ngOnInit fetches the profile the
server holds for that id, stores it with the new flag still false, and
publishes a header title containing the loaded records name. -/
theorem ngOnInit_numeric_loadsProfile (now : Nat) (cdns : List ResponseCDN)
    (server : ApiRequest → List ResponseProfile) (s : String) (c : Char) (rest : List Char)
    (p : ResponseProfile) (ps : List ResponseProfile)
    (hcr : s.toList = c :: rest) (hdig : ∀ x ∈ s.toList, x.isDigit = true)
    (hsrv : server (profileIdRequest (some (digitsToNat s.toList : Int))) = p :: ps) :
    (ProfileDetailComponent.ngOnInit now cdns server (some s)).2 =
      Except.ok { new := false, profile := p, cdns := cdns } ∧
    Effect.headerTitle ("Profile: " ++ p.name) ∈
      (ProfileDetailComponent.ngOnInit now cdns server (some s)).1 := by
  have hnum := jsNumber_digits s c rest hcr hdig
  have hpi := jsParseInt_digits s c rest hcr hdig
  have hne : ¬(s = "new") := digits_ne_new s hdig
  rw [ProfileDetailComponent.ngOnInit_goodBranch now cdns server s _ p ps hne hpi
    (by rw [hnum]; exact hsrv)]
  exact ⟨rfl, by simp⟩

/-- Witness for C3 at the concrete route parameter "2". -/
theorem ngOnInit_numeric_loadsProfile_witness :
    (ProfileDetailComponent.ngOnInit 0 [] wListServer (some "2")).2 =
      Except.ok { new := false, profile := sampleProfile, cdns := [] } ∧
    Effect.headerTitle ("Profile: " ++ sampleProfile.name) ∈
      (ProfileDetailComponent.ngOnInit 0 [] wListServer (some "2")).1 :=
  ngOnInit_numeric_loadsProfile 0 [] wListServer "2" '2' [] sampleProfile []
    (by decide) (by decide) rfl

/-- C8: with a server that always answers with a non-empty array, ngOnInit
throws exactly when the id route parameter is absent or is a non-"new"
string whose parseInt is NaN; every accepted non-"new" id leads to a
request for Number(id), and for the accepted input "12x" that number is
NaN while parseInt yields 12. -/
theorem ngOnInit_guard_spec (now : Nat) (cdns : List ResponseCDN)
    (server : ApiRequest → List ResponseProfile)
    (hne : ∀ req, server req ≠ []) (idParam : Option String) :
    ((ProfileDetailComponent.ngOnInit now cdns server idParam).2.toOption = none ↔
      idParam = none ∨ ∃ s, idParam = some s ∧ ¬(s = "new") ∧ jsParseInt s = none) ∧
    (∀ s, idParam = some s → ¬(s = "new") → (jsParseInt s).isNone = false →
      Effect.httpReq (profileIdRequest (jsNumber s)) ∈
        (ProfileDetailComponent.ngOnInit now cdns server idParam).1) ∧
    jsParseInt "12x" = some 12 ∧ jsNumber "12x" = none := by
  have pick : ∀ n : JSNum, ∃ p ps, server (profileIdRequest n) = p :: ps := by
    intro n
    cases h : server (profileIdRequest n) with
    | nil => exact absurd h (hne _)
    | cons a l => exact ⟨a, l, rfl⟩
  refine ⟨?_, ?_, by decide, by decide⟩
  · cases idParam with
    | none => simp [ProfileDetailComponent.ngOnInit, Except.toOption]
    | some s =>
      by_cases hs : s = "new"
      · subst hs
        simp [ProfileDetailComponent.ngOnInit, Except.toOption]
      · cases hpi : jsParseInt s with
        | none =>
          rw [ProfileDetailComponent.ngOnInit_badBranch now cdns server s hs hpi]
          simp [hs, hpi, Except.toOption]
        | some v =>
          obtain ⟨p, ps, hsrv⟩ := pick (jsNumber s)
          rw [ProfileDetailComponent.ngOnInit_goodBranch now cdns server s v p ps hs hpi hsrv]
          simp [hs, hpi, Except.toOption]
  · intro s hs hnew hpi
    subst hs
    cases hpi2 : jsParseInt s with
    | none => rw [hpi2] at hpi; simp at hpi
    | some v =>
      obtain ⟨p, ps, hsrv⟩ := pick (jsNumber s)
      rw [ProfileDetailComponent.ngOnInit_goodBranch now cdns server s v p ps hnew hpi2 hsrv]
      simp

/-- Witness for C8 at the concrete accepted route parameter "12x": the
request issued carries the NaN id. -/
theorem ngOnInit_guard_spec_witness :
    Effect.httpReq (profileIdRequest (jsNumber "12x")) ∈
      (ProfileDetailComponent.ngOnInit 0 [] wListServer (some "12x")).1 :=
  (ngOnInit_guard_spec 0 [] wListServer (fun req => by simp [wListServer]) (some "12x")).2.1
    "12x" rfl (by decide) (by decide)

/-- A concrete single-response server oracle answering every request with
the sample profile. -/
def wOneServer : ApiRequest → ResponseProfile := fun _ => sampleProfile

/-- A concrete server oracle answering every request with the empty array. -/
def wEmptyServer : ApiRequest → List ResponseProfile := fun _ => []

/-- A concrete component state whose new flag is set. -/
def wNewState : ProfileDetailComponent.ComponentState :=
  { new := true, profile := sampleProfile, cdns := [] }

/-- A concrete component state holding an existing record. -/
def wExistingState : ProfileDetailComponent.ComponentState :=
  { new := false, profile := sampleProfile, cdns := [] }

/-- A concrete form submission event with neither flag set yet. -/
def wEvent : ProfileDetailComponent.SubmitEvent :=
  { defaultPrevented := false, propagationStopped := false }

/-- C1: submit prevents the default event action; with the new flag set it
POSTs the working profile via createProfile, replaces the working copy with
the servers response and clears the flag; otherwise it PUTs it via
updateProfile and replaces the working copy with the servers response. -/
theorem submit_spec (server : ApiRequest → ResponseProfile)
    (s : ProfileDetailComponent.ComponentState) (e : ProfileDetailComponent.SubmitEvent) :
    ((ProfileDetailComponent.submit server s e).2.1.defaultPrevented = true) ∧
    (s.new = true →
      (ProfileDetailComponent.submit server s e).2.2 =
        [Effect.httpReq (ProfileService.createProfile server s.profile).1] ∧
      (ProfileService.createProfile server s.profile).1.method = HttpMethod.post ∧
      (ProfileService.createProfile server s.profile).1.path = "profiles" ∧
      (ProfileDetailComponent.submit server s e).1.profile =
        (ProfileService.createProfile server s.profile).2 ∧
      (ProfileDetailComponent.submit server s e).1.new = false) ∧
    (s.new = false →
      (ProfileDetailComponent.submit server s e).2.2 =
        [Effect.httpReq (ProfileService.updateProfile server s.profile).1] ∧
      (ProfileService.updateProfile server s.profile).1.method = HttpMethod.put ∧
      (ProfileService.updateProfile server s.profile).1.path =
        "profiles/" ++ toString s.profile.id ∧
      (ProfileDetailComponent.submit server s e).1.profile =
        (ProfileService.updateProfile server s.profile).2) := by
  cases hn : s.new
  · simp [ProfileDetailComponent.submit, hn, ProfileService.updateProfile]
  · simp [ProfileDetailComponent.submit, hn, ProfileService.createProfile]

/-- Witness for C1: at a concrete new-record state, submitting clears the
new flag. -/
theorem submit_spec_witness :
    (ProfileDetailComponent.submit wOneServer wNewState wEvent).1.new = false :=
  ((submit_spec wOneServer wNewState wEvent).2.1 rfl).2.2.2.2

/-- C4 counterexample: at a concrete existing-record state, submit issues
exactly one HTTP request, a PUT of the working profile; no GET re-fetch
occurs anywhere in the trace, refuting the fetch/compare/send description
of the submission data flow. -/
theorem submit_fetchCompareSend_counterexample :
    (ProfileDetailComponent.submit wOneServer wExistingState wEvent).2.2 =
      [Effect.httpReq { method := HttpMethod.put,
                        path := "profiles/" ++ toString (2 : Int),
                        params := [], body := some sampleProfile }] ∧
    ((ProfileDetailComponent.submit wOneServer wExistingState wEvent).2.2.all
      (fun x => !x.isGetRequest)) = true :=
  ⟨rfl, rfl⟩

/-- C4 amended: on submission for an existing record the flow is send-only:
a single PUT carrying the form model whose response replaces the working
copy; no re-fetch, no comparison request and no navigation occur. -/
theorem submit_existing_sendOnly (server : ApiRequest → ResponseProfile)
    (s : ProfileDetailComponent.ComponentState) (e : ProfileDetailComponent.SubmitEvent)
    (h : s.new = false) :
    (ProfileDetailComponent.submit server s e).2.2 =
      [Effect.httpReq (ProfileService.updateProfile server s.profile).1] ∧
    (ProfileService.updateProfile server s.profile).1.method = HttpMethod.put ∧
    (ProfileDetailComponent.submit server s e).1.profile =
      (ProfileService.updateProfile server s.profile).2 ∧
    ((ProfileDetailComponent.submit server s e).2.2.all (fun x => !x.isGetRequest)) = true ∧
    ((ProfileDetailComponent.submit server s e).2.2.all (fun x => !x.isNavigation)) = true := by
  simp [ProfileDetailComponent.submit, h, ProfileService.updateProfile,
    Effect.isGetRequest, Effect.isNavigation]

/-- Witness for the amended C4 at a concrete existing-record state. -/
theorem submit_existing_sendOnly_witness :
    ((ProfileDetailComponent.submit wOneServer wExistingState wEvent).2.2.all
      (fun x => !x.isNavigation)) = true :=
  (submit_existing_sendOnly wOneServer wExistingState wEvent rfl).2.2.2.2

/-- C5: every ProfileService method is a pass-through to its REST endpoint:
POST "profiles" for create, GET "profiles" returning the whole array with
no argument, GET "profiles" with an id constraint returning one profile for
a number, PUT "profiles/{id}" using the arguments id field for update, and
DELETE "profiles/{id}" for delete. -/
theorem profileService_passthrough (listServer : ApiRequest → List ResponseProfile)
    (oneServer : ApiRequest → ResponseProfile) (p : ResponseProfile) (n rid : Int) :
    (ProfileService.createProfile oneServer p).1 =
      { method := HttpMethod.post, path := "profiles", params := [], body := some p } ∧
    (ProfileService.createProfile oneServer p).2 =
      oneServer (ProfileService.createProfile oneServer p).1 ∧
    (ProfileService.getProfiles listServer none).1 =
      { method := HttpMethod.get, path := "profiles", params := [], body := none } ∧
    (ProfileService.getProfiles listServer none).2 =
      Sum.inl (listServer (ProfileService.getProfiles listServer none).1) ∧
    (ProfileService.getProfiles listServer (some (Sum.inl (some n)))).1 =
      { method := HttpMethod.get, path := "profiles", params := [("id", toString n)],
        body := none } ∧
    (listServer (ProfileService.getProfiles listServer (some (Sum.inl (some n)))).1 ≠ [] →
      ∃ q, (ProfileService.getProfiles listServer (some (Sum.inl (some n)))).2 =
        Sum.inr (some q)) ∧
    (ProfileService.updateProfile oneServer p).1 =
      { method := HttpMethod.put, path := "profiles/" ++ toString p.id, params := [],
        body := some p } ∧
    (ProfileService.updateProfile oneServer p).2 =
      oneServer (ProfileService.updateProfile oneServer p).1 ∧
    (ProfileService.deleteProfile oneServer (Sum.inl rid)).1 =
      { method := HttpMethod.delete, path := "profiles/" ++ toString rid, params := [],
        body := none } := by
  refine ⟨rfl, rfl, rfl, rfl, rfl, ?_, rfl, rfl, rfl⟩
  simp only [getProfiles_id_eq]
  intro h
  cases hl : listServer (profileIdRequest (some n)) with
  | nil => exact absurd hl h
  | cons a l => exact ⟨a, by simp [hl]⟩

/-- Witness for C5: with a server answering the singleton sample array, the
single-profile overload indeed yields one profile. -/
theorem profileService_passthrough_witness :
    ∃ q, (ProfileService.getProfiles wListServer (some (Sum.inl (some (2 : Int))))).2 =
      Sum.inr (some q) :=
  (profileService_passthrough wListServer wOneServer sampleProfile 2 2).2.2.2.2.2.1
    (by simp [wListServer, getProfiles_id_eq])

/-- C9: with an argument, getProfiles returns the first element of the
response array, and on an empty response array the single-profile overload
yields undefined (none) despite its declared single-record result type. -/
theorem getProfiles_single_firstElement (listServer : ApiRequest → List ResponseProfile)
    (idOrName : JSNum ⊕ String) :
    (ProfileService.getProfiles listServer (some idOrName)).2 =
      Sum.inr (listServer (ProfileService.getProfiles listServer (some idOrName)).1).head? ∧
    (listServer (ProfileService.getProfiles listServer (some idOrName)).1 = [] →
      (ProfileService.getProfiles listServer (some idOrName)).2 = Sum.inr none) := by
  refine ⟨rfl, fun h => ?_⟩
  cases idOrName <;>
    · simp only [ProfileService.getProfiles] at h ⊢
      rw [h]
      rfl

/-- Witness for C9: the empty-response server makes the single overload
return none. -/
theorem getProfiles_single_firstElement_witness :
    (ProfileService.getProfiles wEmptyServer (some (Sum.inl (some (2 : Int))))).2 =
      Sum.inr none :=
  (getProfiles_single_firstElement wEmptyServer (Sum.inl (some 2))).2 rfl

/-- C6: with the new flag clear, deleteType opens the decision dialog first;
a truthy dialog result makes the trace exactly dialog, DELETE of the
current profiles id, navigation to the profile list view; a falsy result
leaves the dialog as the only effect, so no DELETE is issued without
confirmation. -/
theorem deleteType_confirmThenDelete (server : ApiRequest → ResponseProfile)
    (s : ProfileDetailComponent.ComponentState) (result : Bool) (h : s.new = false) :
    ((ProfileDetailComponent.deleteType server result s).2.head?.map Effect.isDialog =
      some true) ∧
    (result = true →
      (ProfileDetailComponent.deleteType server result s).2 =
        [Effect.openDialog ("Are you sure to delete Profile " ++ s.profile.name
            ++ " with id " ++ toString s.profile.id ++ "?") "Confirm Delete",
          Effect.httpReq { method := HttpMethod.delete,
                           path := "profiles/" ++ toString s.profile.id,
                           params := [], body := none },
          Effect.navigate "/core/profiles"]) ∧
    (result = false →
      (ProfileDetailComponent.deleteType server result s).2 =
        [Effect.openDialog ("Are you sure to delete Profile " ++ s.profile.name
            ++ " with id " ++ toString s.profile.id ++ "?") "Confirm Delete"]) := by
  cases result <;>
    simp [ProfileDetailComponent.deleteType, h, ProfileService.deleteProfile, Effect.isDialog]

/-- Witness for C6: confirming the dialog at a concrete state issues the
DELETE and then navigates to the list view. -/
theorem deleteType_confirmThenDelete_witness :
    (ProfileDetailComponent.deleteType wOneServer true wExistingState).2 =
      [Effect.openDialog ("Are you sure to delete Profile " ++ sampleProfile.name
          ++ " with id " ++ toString sampleProfile.id ++ "?") "Confirm Delete",
        Effect.httpReq { method := HttpMethod.delete,
                         path := "profiles/" ++ toString sampleProfile.id,
                         params := [], body := none },
        Effect.navigate "/core/profiles"] :=
  (deleteType_confirmThenDelete wOneServer wExistingState true rfl).2.1 rfl

/-- C10: with the new flag set, deleteType only logs a console error; the
state is unchanged and the trace holds no dialog, HTTP request or
navigation. -/
theorem deleteType_new_noop (server : ApiRequest → ResponseProfile) (result : Bool)
    (s : ProfileDetailComponent.ComponentState) (h : s.new = true) :
    ProfileDetailComponent.deleteType server result s =
      (s, [Effect.consoleError "Unable to delete new type"]) := by
  simp [ProfileDetailComponent.deleteType, h]

/-- Witness for C10 at a concrete new-record state. -/
theorem deleteType_new_noop_witness :
    ProfileDetailComponent.deleteType wOneServer true wNewState =
      (wNewState, [Effect.consoleError "Unable to delete new type"]) :=
  deleteType_new_noop wOneServer true wNewState rfl

/-- C7: the core route table maps "profiles" to ProfileTableComponent,
"profiles/:id" to ProfileDetailComponent and "cdns/:id" to
CDNDetailComponent, and every route carries the AuthenticatedGuard in its
canActivate list. -/
theorem routes_spec :
    ({ component := "ProfileTableComponent", path := "profiles",
        canActivate := ["AuthenticatedGuard"] } : Route) ∈ ROUTES ∧
    ({ component := "ProfileDetailComponent", path := "profiles/:id",
        canActivate := ["AuthenticatedGuard"] } : Route) ∈ ROUTES ∧
    ({ component := "CDNDetailComponent", path := "cdns/:id",
        canActivate := ["AuthenticatedGuard"] } : Route) ∈ ROUTES ∧
    (ROUTES.all (fun r => r.canActivate.contains "AuthenticatedGuard")) = true := by
  decide

end TrafficPortal
